import Mathlib

/-!
Shallow embedding of `src/saree_crm_flask_app.py` (a single-file Flask +
SQLite CRM for customers, orders and follow-ups), together with theorems
checking the design-specification claims about it.

Modelling conventions:
* A database state is three lists of rows (`Db`); each row carries the
  SQLite integer primary key `id` in addition to the public string ID.
* HTML form data is a record of `Option String` fields; `none` models an
  absent key (`request.form.get` returning `None`), `some ""` models a
  field submitted blank.
* Fallible Python code (int() / fromisoformat parse errors, KeyError on
  `request.form['name']`, NOT NULL IntegrityError at commit) is modelled
  with `Except CrmError`; an `error` result means the request fails with
  an unhandled exception and the database is unchanged.
* `datetime.date` is a `Date` structure of numeric year/month/day;
  `datetime.datetime.fromisoformat` is modelled on the date-only ISO form
  `YYYY-MM-DD` produced by HTML date inputs (longer datetime forms are out
  of scope), including month/day range and leap-year validity checks.
* Python `int(...)` on ID suffixes is modelled on unsigned digit strings
  (`parseDigits`); any other string is a parse failure, standing for the
  unhandled `ValueError`.
* SQL queries are modelled over the row lists: `filter_by(...).first()` is
  `List.find?`, `order_by` is a stable insertion sort with the query's
  comparator, `GROUP BY` enumerates the deduplicated key values.
-/

namespace SareeCrm

/-! ## Small string/number helpers -/

/-- Numeric value of a digit list, most significant first
(the digit part of Python `int`). -/
def digitsToNat (l : List Char) : Nat :=
  l.foldl (fun acc c => acc * 10 + (c.toNat - 48)) 0

/-- Python `int()` restricted to nonempty unsigned digit strings, as used on
ID suffixes; any other shape is a parse failure (`none`), standing for the
unhandled `ValueError`. -/
def parseDigits (l : List Char) : Option Nat :=
  if l ≠ [] ∧ l.all Char.isDigit then some (digitsToNat l) else none

/-- Python `int()` on amount strings: optional leading minus sign followed by
digits; anything else is a parse failure (`ValueError`). -/
def parseIntStr (s : String) : Option Int :=
  match s.toList with
  | '-' :: t => (parseDigits t).map (fun n => -(n : Int))
  | l => (parseDigits l).map (fun n => (n : Int))

/-- Python `str.lstrip` with a single strip character: removes every leading
occurrence of that character. -/
def lstripChar (c : Char) (s : String) : String :=
  String.mk (s.toList.dropWhile (fun x => x = c))

/-- Python format `f'{n:03d}'` for a natural number: zero-pad to width 3,
degrading to the plain decimal string when wider. -/
def pad3 (n : Nat) : String :=
  if n < 10 then "00" ++ toString n
  else if n < 100 then "0" ++ toString n
  else toString n

/-- Zero-pad to width 2 (month/day position of `str(datetime.date)`). -/
def pad2 (n : Nat) : String :=
  if n < 10 then "0" ++ toString n else toString n

/-- Zero-pad to width 4 (year position of `str(datetime.date)`). -/
def pad4 (n : Nat) : String :=
  if n < 10 then "000" ++ toString n
  else if n < 100 then "00" ++ toString n
  else if n < 1000 then "0" ++ toString n
  else toString n

/-! ## Dates -/

/-- A calendar date (`datetime.date`). -/
structure Date where
  year : Nat
  month : Nat
  day : Nat
deriving DecidableEq

/-- Chronological comparison of dates (lexicographic on year, month, day). -/
def Date.le (a b : Date) : Bool :=
  decide (a.year < b.year ∨ (a.year = b.year ∧
    (a.month < b.month ∨ (a.month = b.month ∧ a.day ≤ b.day))))

/-- Gregorian leap-year test, as in `datetime`. -/
def isLeap (y : Nat) : Bool :=
  y % 4 = 0 && (y % 100 != 0 || y % 400 = 0)

/-- Number of days in a month, as validated by `datetime.date`. -/
def daysInMonth (y m : Nat) : Nat :=
  if m = 2 then (if isLeap y then 29 else 28)
  else if m = 4 ∨ m = 6 ∨ m = 9 ∨ m = 11 then 30
  else 31

/-- `datetime.datetime.fromisoformat(s).date()` restricted to the date-only
ISO form `YYYY-MM-DD` produced by HTML date inputs; `none` models the
`ValueError` raised on any malformed string. -/
def parseDate (s : String) : Option Date :=
  match s.toList with
  | [y1, y2, y3, y4, s1, m1, m2, s2, d1, d2] =>
    if s1 = '-' ∧ s2 = '-' ∧ ([y1, y2, y3, y4, m1, m2, d1, d2].all Char.isDigit) then
      let y := digitsToNat [y1, y2, y3, y4]
      let m := digitsToNat [m1, m2]
      let d := digitsToNat [d1, d2]
      if 1 ≤ y ∧ 1 ≤ m ∧ m ≤ 12 ∧ 1 ≤ d ∧ d ≤ daysInMonth y m then
        some ⟨y, m, d⟩
      else none
    else none
  | _ => none

/-- `str(datetime.date)`: the ISO string of a date. -/
def Date.iso (d : Date) : String :=
  pad4 d.year ++ "-" ++ pad2 d.month ++ "-" ++ pad2 d.day

/-! ## Stable sort (model of SQL ORDER BY) -/

/-- Insert into a sorted list (helper of `sortLe`). -/
def insertLe (le : α → α → Bool) (a : α) : List α → List α
  | [] => [a]
  | b :: t => if le a b then a :: b :: t else b :: insertLe le a t

/-- Stable insertion sort; models the row ordering produced by a SQL
`ORDER BY` with comparator `le`. -/
def sortLe (le : α → α → Bool) : List α → List α
  | [] => []
  | a :: t => insertLe le a (sortLe le t)

theorem insertLe_perm (le : α → α → Bool) (a : α) (l : List α) :
    (insertLe le a l).Perm (a :: l) := by
  induction l with
  | nil => simp [insertLe]
  | cons b t ih =>
    simp only [insertLe]
    by_cases h : le a b = true
    · rw [if_pos h]
    · rw [if_neg h]
      exact (ih.cons b).trans (List.Perm.swap a b t)

theorem sortLe_perm (le : α → α → Bool) (l : List α) :
    (sortLe le l).Perm l := by
  induction l with
  | nil => simp [sortLe]
  | cons a t ih =>
    exact (insertLe_perm le a (sortLe le t)).trans (ih.cons a)

theorem pairwise_insertLe (le : α → α → Bool)
    (htrans : ∀ a b c, le a b = true → le b c = true → le a c = true)
    (htotal : ∀ a b, le a b = true ∨ le b a = true) (a : α) (l : List α)
    (h : l.Pairwise (fun x y => le x y = true)) :
    (insertLe le a l).Pairwise (fun x y => le x y = true) := by
  induction l with
  | nil => simp [insertLe]
  | cons b t ih =>
    rw [List.pairwise_cons] at h
    obtain ⟨hb, ht⟩ := h
    simp only [insertLe]
    by_cases hab : le a b = true
    · rw [if_pos hab, List.pairwise_cons, List.pairwise_cons]
      refine ⟨?_, hb, ht⟩
      intro x hx
      rcases List.mem_cons.mp hx with rfl | hx'
      · exact hab
      · exact htrans a b x hab (hb x hx')
    · rw [if_neg hab, List.pairwise_cons]
      refine ⟨?_, ih ht⟩
      intro x hx
      rcases List.mem_cons.mp ((insertLe_perm le a t).mem_iff.mp hx) with rfl | hx'
      · rcases htotal x b with h1 | h1
        · exact absurd h1 hab
        · exact h1
      · exact hb x hx'

theorem pairwise_sortLe (le : α → α → Bool)
    (htrans : ∀ a b c, le a b = true → le b c = true → le a c = true)
    (htotal : ∀ a b, le a b = true ∨ le b a = true) (l : List α) :
    (sortLe le l).Pairwise (fun x y => le x y = true) := by
  induction l with
  | nil => simp [sortLe]
  | cons a t ih => exact pairwise_insertLe le htrans htotal a (sortLe le t) ih

/-! ## Data model

The three SQLAlchemy models. Each row carries the SQLite integer primary
key `id`; columns declared `nullable=False` (`customer_id`, `name`,
`order_id`, `Order.customer_id`, `fu_id`) are plain values, the rest are
`Option`s (NULL-able). -/

/-- Row of the `Customer` table. -/
structure Customer where
  id : Nat
  customer_id : String
  name : String
  insta : Option String
  phone : Option String
  city : Option String
  ctype : Option String
  notes : Option String
deriving DecidableEq

/-- Row of the `Order` table. -/
structure Order where
  id : Nat
  order_id : String
  date : Date
  customer_id : String
  saree_type : Option String
  amount : Int
  payment_status : Option String
  delivery_status : Option String
  remarks : Option String
deriving DecidableEq

/-- Row of the `FollowUp` table. -/
structure FollowUp where
  id : Nat
  fu_id : String
  date : Date
  customer_name : Option String
  insta : Option String
  topic : Option String
  next_date : Option Date
  status : Option String
  remarks : Option String
deriving DecidableEq

/-- The whole SQLite database: the three tables, each in insertion order. -/
structure Db where
  customers : List Customer
  orders : List Order
  followups : List FollowUp
deriving DecidableEq

/-- Unhandled Python exceptions a request can die with. -/
inductive CrmError where
  /-- `ValueError` from `int()` or `datetime.fromisoformat`. -/
  | valueError
  /-- `KeyError`/400 from `request.form['name']` on a missing key. -/
  | keyError
  /-- `IntegrityError` from committing a NULL into a NOT NULL column. -/
  | integrityError
deriving DecidableEq

/-- Result page of a POST: a redirect back to the list view, or (when the
handler falls through every write branch) the rendered list page itself. -/
inductive Outcome (ρ : Type) where
  | redirect
  | listPage (rows : List ρ)
deriving DecidableEq

/-- `request.form` for the customers endpoint: `none` is an absent key,
`some ""` a field submitted blank. `_method` is the hidden operation
override field. -/
structure CustomerForm where
  customer_id : Option String
  name : Option String
  insta : Option String
  phone : Option String
  city : Option String
  ctype : Option String
  notes : Option String
  _method : Option String
deriving DecidableEq

/-- `request.form` for the orders endpoint. -/
structure OrderForm where
  order_id : Option String
  date : Option String
  customer_id : Option String
  saree_type : Option String
  amount : Option String
  payment_status : Option String
  delivery_status : Option String
  remarks : Option String
  _method : Option String
deriving DecidableEq

/-- `request.form` for the follow-ups endpoint. -/
structure FollowUpForm where
  fu_id : Option String
  date : Option String
  customer_name : Option String
  insta : Option String
  topic : Option String
  next_date : Option String
  status : Option String
  remarks : Option String
  _method : Option String
deriving DecidableEq

/-! ## Identifier generator -/

/-- `Table.query.order_by(Table.id.desc()).first()`: the row with the
greatest primary key, i.e. the most recently inserted row. -/
def latestBy (key : α → Nat) : List α → Option α
  | [] => none
  | a :: t =>
    match latestBy key t with
    | none => some a
    | some b => some (if key b < key a then a else b)

/-- `next_customer_id()`: look at the most recently inserted customer row,
strip the leading `C`s from its public ID, parse the digits, add one and
re-format as `C` plus zero-padded 3 digits; `C001` on an empty table.
An unparsable suffix is the unhandled `ValueError`. -/
def next_customer_id (rows : List Customer) : Except CrmError String :=
  match latestBy Customer.id rows with
  | none => Except.ok "C001"
  | some c =>
    match parseDigits ((lstripChar 'C' c.customer_id).toList) with
    | none => Except.error CrmError.valueError
    | some n => Except.ok ("C" ++ pad3 (n + 1))

/-- `next_order_id()`, same scheme with prefix `O`. -/
def next_order_id (rows : List Order) : Except CrmError String :=
  match latestBy Order.id rows with
  | none => Except.ok "O001"
  | some o =>
    match parseDigits ((lstripChar 'O' o.order_id).toList) with
    | none => Except.error CrmError.valueError
    | some n => Except.ok ("O" ++ pad3 (n + 1))

/-- `next_fu_id()`, same scheme with prefix `F`. -/
def next_fu_id (rows : List FollowUp) : Except CrmError String :=
  match latestBy FollowUp.id rows with
  | none => Except.ok "F001"
  | some f =>
    match parseDigits ((lstripChar 'F' f.fu_id).toList) with
    | none => Except.error CrmError.valueError
    | some n => Except.ok ("F" ++ pad3 (n + 1))

/-- `request.form.get(key) or generate()`: Python `or` falls back to the
generator when the field is absent or blank (both falsy). -/
def resolveId (supplied : Option String) (gen : Except CrmError String) :
    Except CrmError String :=
  match supplied with
  | some s => if s = "" then gen else Except.ok s
  | none => gen

/-- SQLite rowid assignment for a fresh insert: one more than the largest
existing primary key. -/
def freshRowId (ids : List Nat) : Nat :=
  ids.foldl max 0 + 1

/-! ## List views (the GET side of each endpoint) -/

/-- `Customer.query.order_by(Customer.id.desc()).all()`. -/
def customersListing (db : Db) : List Customer :=
  sortLe (fun a b => decide (b.id ≤ a.id)) db.customers

/-- `Order.query.order_by(Order.date.desc()).all()`. -/
def ordersListing (db : Db) : List Order :=
  sortLe (fun a b => Date.le b.date a.date) db.orders

/-- Comparator of `FollowUp.next_date.asc().nulls_last()`: ascending dates,
with NULL `next_date` sorting after every date. -/
def optDateLeNullsLast (a b : Option Date) : Bool :=
  match a, b with
  | none, none => true
  | none, some _ => false
  | some _, none => true
  | some x, some y => Date.le x y

/-- `FollowUp.query.order_by(FollowUp.next_date.asc().nulls_last()).all()`. -/
def followupsListing (db : Db) : List FollowUp :=
  sortLe (fun a b => optDateLeNullsLast a.next_date b.next_date) db.followups

/-! ## POST handlers -/

/-- The field updates of the customers `PUT` branch, applied to the row
whose primary key is `tid` (every form-controlled field is overwritten;
`customer_id` and the primary key are not form-controlled). -/
def custApply (fm : CustomerForm) (nm : String) (tid : Nat) (r : Customer) : Customer :=
  if r.id = tid then
    { r with name := nm, insta := fm.insta, phone := fm.phone,
             city := fm.city, ctype := fm.ctype, notes := fm.notes }
  else r

/-- POST `/customers`: resolve the public ID (generating one when the form
leaves it blank), look the row up, then dispatch on the `_method` override:
update when found and `PUT`, delete when found and `DELETE`, insert when
not found, otherwise fall through to rendering the list page. -/
def customersPost (db : Db) (fm : CustomerForm) :
    Except CrmError (Db × Outcome Customer) :=
  match resolveId fm.customer_id (next_customer_id db.customers) with
  | Except.error e => Except.error e
  | Except.ok cid =>
    match db.customers.find? (fun c => c.customer_id == cid) with
    | some ex =>
      if fm._method = some "PUT" then
        match fm.name with
        | none => Except.error CrmError.keyError
        | some nm =>
          Except.ok ({ db with customers := db.customers.map (custApply fm nm ex.id) },
            Outcome.redirect)
      else if fm._method = some "DELETE" then
        Except.ok ({ db with customers := db.customers.filter (fun r => r.id != ex.id) },
          Outcome.redirect)
      else
        Except.ok (db, Outcome.listPage (customersListing db))
    | none =>
      match fm.name with
      | none => Except.error CrmError.keyError
      | some nm =>
        Except.ok ({ db with customers := db.customers ++
          [{ id := freshRowId (db.customers.map Customer.id), customer_id := cid,
             name := nm, insta := fm.insta, phone := fm.phone, city := fm.city,
             ctype := fm.ctype, notes := fm.notes }] }, Outcome.redirect)

/-- `request.form.get('date') or datetime.date.today().isoformat()` followed
by `fromisoformat(...)`: a missing or blank date field means today. -/
def resolveDate (today : Date) (v : Option String) : Except CrmError Date :=
  match v with
  | none => Except.ok today
  | some s =>
    if s = "" then Except.ok today
    else
      match parseDate s with
      | none => Except.error CrmError.valueError
      | some d => Except.ok d

/-- `int(request.form.get('amount') or 0)`: 0 when absent or blank,
otherwise a parse that can raise `ValueError`. -/
def resolveAmount (v : Option String) : Except CrmError Int :=
  match v with
  | none => Except.ok 0
  | some s =>
    if s = "" then Except.ok 0
    else
      match parseIntStr s with
      | none => Except.error CrmError.valueError
      | some n => Except.ok n

/-- The field updates of the orders `PUT` branch, applied to the row whose
primary key is `tid` (`order_id` and the primary key are untouched). -/
def ordApply (fm : OrderForm) (dobj : Date) (amt : Int) (cust : String)
    (tid : Nat) (r : Order) : Order :=
  if r.id = tid then
    { r with date := dobj, customer_id := cust, saree_type := fm.saree_type,
             amount := amt, payment_status := fm.payment_status,
             delivery_status := fm.delivery_status, remarks := fm.remarks }
  else r

/-- POST `/orders`. The date string is resolved and parsed *before* the
`_method` dispatch (source lines 268-269), so a malformed date aborts every
branch. A missing `customer_id` commits NULL into a NOT NULL column, i.e.
`IntegrityError`; a malformed `amount` is a `ValueError` inside the update
and insert branches. -/
def ordersPost (today : Date) (db : Db) (fm : OrderForm) :
    Except CrmError (Db × Outcome Order) :=
  match resolveId fm.order_id (next_order_id db.orders) with
  | Except.error e => Except.error e
  | Except.ok oid =>
    match resolveDate today fm.date with
    | Except.error e => Except.error e
    | Except.ok dobj =>
      match db.orders.find? (fun o => o.order_id == oid) with
      | some ex =>
        if fm._method = some "PUT" then
          match resolveAmount fm.amount with
          | Except.error e => Except.error e
          | Except.ok amt =>
            match fm.customer_id with
            | none => Except.error CrmError.integrityError
            | some cust =>
              Except.ok ({ db with orders := db.orders.map (ordApply fm dobj amt cust ex.id) },
                Outcome.redirect)
        else if fm._method = some "DELETE" then
          Except.ok ({ db with orders := db.orders.filter (fun r => r.id != ex.id) },
            Outcome.redirect)
        else
          Except.ok (db, Outcome.listPage (ordersListing db))
      | none =>
        match resolveAmount fm.amount with
        | Except.error e => Except.error e
        | Except.ok amt =>
          match fm.customer_id with
          | none => Except.error CrmError.integrityError
          | some cust =>
            Except.ok ({ db with orders := db.orders ++
              [{ id := freshRowId (db.orders.map Order.id), order_id := oid,
                 date := dobj, customer_id := cust, saree_type := fm.saree_type,
                 amount := amt, payment_status := fm.payment_status,
                 delivery_status := fm.delivery_status, remarks := fm.remarks }] },
              Outcome.redirect)

/-- `next_date = request.form.get('next_date') or None` followed by
`fromisoformat(next_date).date() if next_date else None`: absent or blank
means NULL, otherwise a parse that can raise. -/
def resolveNextDate (v : Option String) : Except CrmError (Option Date) :=
  match v with
  | none => Except.ok none
  | some s =>
    if s = "" then Except.ok none
    else
      match parseDate s with
      | none => Except.error CrmError.valueError
      | some d => Except.ok (some d)

/-- The field updates of the follow-ups `PUT` branch (`fu_id` and the
primary key are untouched). -/
def fuApply (fm : FollowUpForm) (dobj : Date) (nd : Option Date)
    (tid : Nat) (r : FollowUp) : FollowUp :=
  if r.id = tid then
    { r with date := dobj, customer_name := fm.customer_name, insta := fm.insta,
             topic := fm.topic, next_date := nd, status := fm.status,
             remarks := fm.remarks }
  else r

/-- POST `/followups`. `next_date` is parsed *before* the `_method` dispatch
(source line 382), but the `date` string is only parsed inside the update
and insert branches (source lines 384 and 398) — the delete branch never
parses it. -/
def followupsPost (today : Date) (db : Db) (fm : FollowUpForm) :
    Except CrmError (Db × Outcome FollowUp) :=
  match resolveId fm.fu_id (next_fu_id db.followups) with
  | Except.error e => Except.error e
  | Except.ok fid =>
    match resolveNextDate fm.next_date with
    | Except.error e => Except.error e
    | Except.ok nd =>
      match db.followups.find? (fun f => f.fu_id == fid) with
      | some ex =>
        if fm._method = some "PUT" then
          match resolveDate today fm.date with
          | Except.error e => Except.error e
          | Except.ok dobj =>
            Except.ok ({ db with followups := db.followups.map (fuApply fm dobj nd ex.id) },
              Outcome.redirect)
        else if fm._method = some "DELETE" then
          Except.ok ({ db with followups := db.followups.filter (fun r => r.id != ex.id) },
            Outcome.redirect)
        else
          Except.ok (db, Outcome.listPage (followupsListing db))
      | none =>
        match resolveDate today fm.date with
        | Except.error e => Except.error e
        | Except.ok dobj =>
          Except.ok ({ db with followups := db.followups ++
            [{ id := freshRowId (db.followups.map FollowUp.id), fu_id := fid,
               date := dobj, customer_name := fm.customer_name, insta := fm.insta,
               topic := fm.topic, next_date := nd, status := fm.status,
               remarks := fm.remarks }] }, Outcome.redirect)

/-! ## Dashboard aggregates -/

/-- `Order.query.count()`. -/
def total_orders (db : Db) : Nat :=
  db.orders.length

/-- `func.coalesce(func.sum(Order.amount), 0)` — the sum of all order
amounts, 0 when there are no orders. -/
def total_sales (db : Db) : Int :=
  (db.orders.map Order.amount).sum

/-- Python's guarded `ZeroDivisionError`-prone division: `int(a / b)` raises
when `b = 0`, otherwise truncates the quotient toward zero. (The exact
float rounding of Python's `/` at astronomically large magnitudes is out of
scope; the division is modelled exactly.) -/
def pyDivInt (a b : Int) : Except CrmError Int :=
  if b = 0 then Except.error CrmError.valueError else Except.ok (Int.tdiv a b)

/-- `avg_order = int(total_sales/total_orders) if total_orders else 0`:
the division only runs behind the nonzero-count guard. -/
def avg_order (db : Db) : Except CrmError Int :=
  if total_orders db ≠ 0 then pyDivInt (total_sales db) (total_orders db)
  else Except.ok 0

/-- Sum of the amounts of the orders of one customer
(`func.sum(Order.amount)` within a `GROUP BY customer_id` group). -/
def sumAmountsFor (orders : List Order) (cid : String) : Int :=
  ((orders.filter (fun o => o.customer_id == cid)).map Order.amount).sum

/-- The distinct `customer_id` keys of `GROUP BY Order.customer_id`. -/
def orderCustIds (orders : List Order) : List String :=
  (orders.map Order.customer_id).dedup

/-- The top-customers query: group orders by `customer_id`, sum the amounts,
order descending by the sum, limit 5. Entries are `(customer_id, total)`
pairs, before name resolution. -/
def topCustomerPairs (db : Db) : List (String × Int) :=
  (sortLe (fun a b => decide (b.2 ≤ a.2))
    ((orderCustIds db.orders).map (fun c => (c, sumAmountsFor db.orders c)))).take 5

/-- The secondary lookup `Customer.query.filter_by(customer_id=...).first()`
with the fallback `cust.name if cust else r[0]`. -/
def resolveCustomerName (db : Db) (cid : String) : String :=
  match db.customers.find? (fun c => c.customer_id == cid) with
  | some c => c.name
  | none => cid

/-- The dashboard's `topc` list: each grouped pair with its customer name
resolved (falling back to the raw `customer_id` string). -/
def topc (db : Db) : List (String × Int) :=
  (topCustomerPairs db).map (fun p => (resolveCustomerName db p.1, p.2))

/-- The distinct `saree_type` keys of `GROUP BY Order.saree_type` (NULL is
one key like any other). -/
def sareeKeys (orders : List Order) : List (Option String) :=
  (orders.map Order.saree_type).dedup

/-- The grouped rows of the saree-type query: each distinct `saree_type`
value with `func.count(Order.id)` over its group. -/
def sareeGroups (db : Db) : List (Option String × Nat) :=
  (sareeKeys db.orders).map
    (fun k => (k, (db.orders.filter (fun o => o.saree_type == k)).length))

/-- `r[0] or 'Unknown'`: NULL and the empty string are falsy, any other
string is its own label. -/
def sareeLabel : Option String → String
  | none => "Unknown"
  | some s => if s = "" then "Unknown" else s

/-- The dashboard's `saree_dist` list: each group keyed by its label. -/
def saree_dist (db : Db) : List (String × Nat) :=
  (sareeGroups db).map (fun p => (sareeLabel p.1, p.2))

/-! ## CSV export -/

/-- CSV cell of a nullable text column: `csv.writer` writes `None` as the
empty string. -/
def optCell (v : Option String) : String :=
  v.getD ""

/-- CSV cell of a nullable date column. -/
def optDateCell (v : Option Date) : String :=
  match v with
  | none => ""
  | some d => d.iso

/-- `rows_to_csv`: one header record followed by one record per row. Each
record is the list of cell strings `csv.writer` writes on one line. -/
def rows_to_csv (cols : List String) (rows : List ρ) (proj : ρ → List String) :
    List (List String) :=
  cols :: rows.map proj

/-- The fixed column order of `/export/customers`. -/
def customerCsvCols : List String :=
  ["customer_id", "name", "insta", "phone", "city", "ctype", "notes"]

/-- The cells of one customer row, in `customerCsvCols` order. -/
def customerCsvRow (c : Customer) : List String :=
  [c.customer_id, c.name, optCell c.insta, optCell c.phone, optCell c.city,
   optCell c.ctype, optCell c.notes]

/-- `/export/customers`: all customer rows as CSV records. -/
def export_customers (db : Db) : List (List String) :=
  rows_to_csv customerCsvCols db.customers customerCsvRow

/-- The fixed column order of `/export/orders`. -/
def orderCsvCols : List String :=
  ["order_id", "date", "customer_id", "saree_type", "amount",
   "payment_status", "delivery_status", "remarks"]

/-- The cells of one order row, in `orderCsvCols` order. -/
def orderCsvRow (o : Order) : List String :=
  [o.order_id, o.date.iso, o.customer_id, optCell o.saree_type,
   toString o.amount, optCell o.payment_status, optCell o.delivery_status,
   optCell o.remarks]

/-- `/export/orders`: all order rows as CSV records. -/
def export_orders (db : Db) : List (List String) :=
  rows_to_csv orderCsvCols db.orders orderCsvRow

/-- The fixed column order of `/export/followups`. -/
def fuCsvCols : List String :=
  ["fu_id", "date", "customer_name", "insta", "topic", "next_date",
   "status", "remarks"]

/-- The cells of one follow-up row, in `fuCsvCols` order. -/
def fuCsvRow (f : FollowUp) : List String :=
  [f.fu_id, f.date.iso, optCell f.customer_name, optCell f.insta,
   optCell f.topic, optDateCell f.next_date, optCell f.status,
   optCell f.remarks]

/-- `/export/followups`: all follow-up rows as CSV records. -/
def export_followups (db : Db) : List (List String) :=
  rows_to_csv fuCsvCols db.followups fuCsvRow

/-! ## Helper lemmas -/

theorem latestBy_mem (key : α → Nat) (l : List α) (b : α) :
    latestBy key l = some b → b ∈ l := by
  induction l with
  | nil => intro h; simp [latestBy] at h
  | cons a t ih =>
    intro h
    simp only [latestBy] at h
    cases ht : latestBy key t with
    | none =>
      rw [ht] at h
      injection h with h
      subst h
      exact List.mem_cons_self a t
    | some x =>
      rw [ht] at h
      injection h with h
      by_cases hk : key x < key a
      · rw [if_pos hk] at h
        subst h
        exact List.mem_cons_self a t
      · rw [if_neg hk] at h
        subst h
        exact List.mem_cons_of_mem a (ih ht)

theorem latestBy_eq_of_strict_max (key : α → Nat) (rows : List α) (c : α)
    (hc : c ∈ rows) (hmax : ∀ r ∈ rows, r = c ∨ key r < key c) :
    latestBy key rows = some c := by
  induction rows with
  | nil => cases hc
  | cons a t ih =>
    have hmax' : ∀ r ∈ t, r = c ∨ key r < key c :=
      fun r hr => hmax r (List.mem_cons_of_mem a hr)
    rcases List.mem_cons.mp hc with rfl | hct
    · cases ht : latestBy key t with
      | none => simp [latestBy, ht]
      | some b =>
        have hbmem : b ∈ t := latestBy_mem key t b ht
        rcases hmax' b hbmem with rfl | hlt
        · simp [latestBy, ht]
        · simp [latestBy, ht, if_neg (Nat.not_lt.mpr (Nat.le_of_lt hlt)), hlt]
    · have ht := ih hct hmax'
      rcases hmax a (List.mem_cons_self a t) with rfl | hlt
      · simp [latestBy, ht]
      · simp [latestBy, ht, if_neg (Nat.not_lt.mpr (Nat.le_of_lt hlt))]

theorem find?_map_of_pres (p : α → Bool) (f : α → α)
    (hp : ∀ a, p (f a) = p a) (l : List α) :
    (l.map f).find? p = (l.find? p).map f := by
  induction l with
  | nil => rfl
  | cons a t ih =>
    cases h : p a with
    | true =>
      rw [List.map_cons, List.find?_cons_of_pos _ (by rw [hp]; exact h),
        List.find?_cons_of_pos _ h]
      rfl
    | false =>
      rw [List.map_cons, List.find?_cons_of_neg _ (by rw [hp, h]; simp),
        List.find?_cons_of_neg _ (by rw [h]; simp), ih]

theorem Date.le_total (a b : Date) : Date.le a b = true ∨ Date.le b a = true := by
  simp only [Date.le, decide_eq_true_eq]
  omega

theorem Date.le_trans (a b c : Date) :
    Date.le a b = true → Date.le b c = true → Date.le a c = true := by
  simp only [Date.le, decide_eq_true_eq]
  omega

theorem optDateLeNullsLast_total (a b : Option Date) :
    optDateLeNullsLast a b = true ∨ optDateLeNullsLast b a = true := by
  cases a with
  | none => cases b with
    | none => left; rfl
    | some y => right; rfl
  | some x => cases b with
    | none => left; rfl
    | some y => exact Date.le_total x y

theorem optDateLeNullsLast_trans (a b c : Option Date) :
    optDateLeNullsLast a b = true → optDateLeNullsLast b c = true →
    optDateLeNullsLast a c = true := by
  cases a <;> cases b <;> cases c <;> intro h1 h2 <;>
    simp only [optDateLeNullsLast] at h1 h2 ⊢ <;>
    first
    | rfl
    | exact Date.le_trans _ _ _ h1 h2
    | exact h1
    | exact h2
    | exact absurd h2 (by decide)

/-! ## Claim C1: identifier generation -/

/-- Concrete table for refuting C1: the most recently inserted customer
(`C002`, primary key 2) does not hold the numerically largest ID
(`C005`, primary key 1). -/
def c1CustA : Customer :=
  { id := 1, customer_id := "C005", name := "A", insta := none, phone := none,
    city := none, ctype := none, notes := none }

/-- Second row of the C1 refutation table. -/
def c1CustB : Customer :=
  { id := 2, customer_id := "C002", name := "B", insta := none, phone := none,
    city := none, ctype := none, notes := none }

/-- C1 is false as stated: on a table whose numeric maximum suffix is 5
(`C005`), the generator returns `C003` — one more than the *most recently
inserted* row's suffix (`C002`) — not `C006`. -/
theorem c1_counterexample :
    next_customer_id [c1CustA, c1CustB] = Except.ok "C003" ∧
    Except.ok "C003" ≠ (Except.ok "C006" : Except CrmError String) := by
  constructor
  · rfl
  · intro h
    injection h with h
    simp at h

/-- C1 (amended): creating with no caller-supplied ID derives the new ID
from the row with the greatest internal row id (the most recently inserted
row), not from the numeric maximum over all IDs: its single-letter prefix
is stripped, the digits are parsed, incremented, and re-formatted as the
prefix plus a zero-padded 3-digit number; when the table is empty the
generator returns the entity's base ID (`C001`/`O001`/`F001`). -/
theorem c1_amended :
    next_customer_id [] = Except.ok "C001" ∧
    next_order_id [] = Except.ok "O001" ∧
    next_fu_id [] = Except.ok "F001" ∧
    (∀ (rows : List Customer) (c : Customer) (n : Nat),
      c ∈ rows → (∀ r ∈ rows, r = c ∨ r.id < c.id) →
      parseDigits ((lstripChar 'C' c.customer_id).toList) = some n →
      next_customer_id rows = Except.ok ("C" ++ pad3 (n + 1))) ∧
    (∀ (rows : List Order) (o : Order) (n : Nat),
      o ∈ rows → (∀ r ∈ rows, r = o ∨ r.id < o.id) →
      parseDigits ((lstripChar 'O' o.order_id).toList) = some n →
      next_order_id rows = Except.ok ("O" ++ pad3 (n + 1))) ∧
    (∀ (rows : List FollowUp) (f : FollowUp) (n : Nat),
      f ∈ rows → (∀ r ∈ rows, r = f ∨ r.id < f.id) →
      parseDigits ((lstripChar 'F' f.fu_id).toList) = some n →
      next_fu_id rows = Except.ok ("F" ++ pad3 (n + 1))) := by
  refine ⟨rfl, rfl, rfl, ?_, ?_, ?_⟩
  · intro rows c n hc hmax hparse
    simp only [next_customer_id, latestBy_eq_of_strict_max Customer.id rows c hc hmax, hparse]
  · intro rows o n ho hmax hparse
    simp only [next_order_id, latestBy_eq_of_strict_max Order.id rows o ho hmax, hparse]
  · intro rows f n hf hmax hparse
    simp only [next_fu_id, latestBy_eq_of_strict_max FollowUp.id rows f hf hmax, hparse]

/-- Witness for `c1_amended`: on the seed table `C001..C003` (inserted in
order), the generator yields `C004`, discharging the most-recent-row and
suffix-parse hypotheses concretely. -/
theorem c1_amended_witness :
    next_customer_id
      [{ id := 1, customer_id := "C001", name := "Priya Reddy", insta := none,
         phone := none, city := none, ctype := none, notes := none },
       { id := 2, customer_id := "C002", name := "Kavya Sharma", insta := none,
         phone := none, city := none, ctype := none, notes := none },
       { id := 3, customer_id := "C003", name := "Meena Patel", insta := none,
         phone := none, city := none, ctype := none, notes := none }] =
      Except.ok "C004" :=
  c1_amended.2.2.2.1 _
    { id := 3, customer_id := "C003", name := "Meena Patel", insta := none,
      phone := none, city := none, ctype := none, notes := none } 3
    (by decide) (by decide) (by decide)

/-! ## Claim C3: list-view ordering -/

/-- Concrete state for refuting C3: the order with the larger primary key
(`O002`, id 2) has the *earlier* date, so the date-descending listing is
not descending in internal row id. -/
def c3OrderA : Order :=
  { id := 1, order_id := "O001", date := ⟨2024, 5, 1⟩, customer_id := "C001",
    saree_type := none, amount := 100, payment_status := none,
    delivery_status := none, remarks := none }

/-- Second row of the C3 refutation state. -/
def c3OrderB : Order :=
  { id := 2, order_id := "O002", date := ⟨2024, 1, 1⟩, customer_id := "C001",
    saree_type := none, amount := 200, payment_status := none,
    delivery_status := none, remarks := none }

/-- The C3 refutation state. -/
def c3Db : Db :=
  { customers := [], orders := [c3OrderA, c3OrderB], followups := [] }

/-- C3 is false as stated: the order listing is sorted by descending
`date`, not by descending internal row id — on `c3Db` it comes back as
ids `[1, 2]`, which is not descending. -/
theorem c3_counterexample :
    ¬ List.Pairwise (fun a b : Order => b.id ≤ a.id) (ordersListing c3Db) := by
  decide

/-- C3 (amended): each GET list view returns all rows of its table —
customers ordered by descending internal row id, orders ordered by
descending `date` (not internal row id), and follow-ups ordered by
ascending `next_date` with NULL `next_date` values last. -/
theorem c3_amended (db : Db) :
    (customersListing db).Perm db.customers ∧
    (customersListing db).Pairwise (fun a b => b.id ≤ a.id) ∧
    (ordersListing db).Perm db.orders ∧
    (ordersListing db).Pairwise (fun a b => Date.le b.date a.date = true) ∧
    (followupsListing db).Perm db.followups ∧
    (followupsListing db).Pairwise
      (fun a b => optDateLeNullsLast a.next_date b.next_date = true) := by
  refine ⟨sortLe_perm _ _, ?_, sortLe_perm _ _, ?_, sortLe_perm _ _, ?_⟩
  · have h := pairwise_sortLe (fun a b : Customer => decide (b.id ≤ a.id))
      (fun a b c h1 h2 => by
        simp only [decide_eq_true_eq] at h1 h2 ⊢
        omega)
      (fun a b => by
        simp only [decide_eq_true_eq]
        omega)
      db.customers
    exact h.imp (fun hab => of_decide_eq_true hab)
  · exact pairwise_sortLe (fun a b : Order => Date.le b.date a.date)
      (fun a b c h1 h2 => Date.le_trans c.date b.date a.date h2 h1)
      (fun a b => by
        show Date.le b.date a.date = true ∨ Date.le a.date b.date = true
        exact Date.le_total b.date a.date)
      db.orders
  · exact pairwise_sortLe
      (fun a b : FollowUp => optDateLeNullsLast a.next_date b.next_date)
      (fun a b c h1 h2 => optDateLeNullsLast_trans _ _ _ h1 h2)
      (fun a b => optDateLeNullsLast_total _ _)
      db.followups

/-! ## Claim C4: average order value -/

/-- C4: the dashboard's average order value never raises: it is the sum of
all order amounts divided by the order count, truncated toward zero, and
exactly 0 when there are no orders (the division sits behind the
nonzero-count guard). -/
theorem c4_avg_order (db : Db) :
    avg_order db =
      Except.ok (if db.orders.length = 0 then 0
        else Int.tdiv ((db.orders.map Order.amount).sum) (db.orders.length)) := by
  by_cases h : db.orders.length = 0
  · simp [avg_order, total_orders, h]
  · have h2 : (db.orders.length : Int) ≠ 0 := by exact_mod_cast h
    simp [avg_order, total_orders, total_sales, pyDivInt, h, h2]

/-! ## Claim C7: CSV export shape -/

/-- C7: each CSV export is the fixed per-entity header record followed by one
record per stored row — length N+1 for N rows, header first, and exactly
the header alone when the table is empty. -/
theorem c7_csv_export (db : Db) :
    (export_customers db).length = db.customers.length + 1 ∧
    (export_customers db).head? = some customerCsvCols ∧
    (export_customers db).tail = db.customers.map customerCsvRow ∧
    (export_orders db).length = db.orders.length + 1 ∧
    (export_orders db).head? = some orderCsvCols ∧
    (export_orders db).tail = db.orders.map orderCsvRow ∧
    (export_followups db).length = db.followups.length + 1 ∧
    (export_followups db).head? = some fuCsvCols ∧
    (export_followups db).tail = db.followups.map fuCsvRow ∧
    export_customers { customers := [], orders := db.orders, followups := db.followups } =
      [customerCsvCols] ∧
    export_orders { customers := db.customers, orders := [], followups := db.followups } =
      [orderCsvCols] ∧
    export_followups { customers := db.customers, orders := db.orders, followups := [] } =
      [fuCsvCols] := by
  refine ⟨?_, rfl, rfl, ?_, rfl, rfl, ?_, rfl, rfl, rfl, rfl, rfl⟩ <;>
    simp [export_customers, export_orders, export_followups, rows_to_csv]

/-! ## Claim C5: top-customers aggregate -/

/-- C5: the top-customers aggregate is sorted descending by summed amount,
has at most 5 entries, and every entry is a `GROUP BY customer_id` group —
its key occurs among the orders' customer ids and its amount is the sum of
that customer's order amounts; the displayed name falls back to the raw
`customer_id` string exactly when no customer row matches, and otherwise
is the matching customer's name. -/
theorem c5_top_customers (db : Db) :
    (topCustomerPairs db).Pairwise (fun a b => b.2 ≤ a.2) ∧
    (topCustomerPairs db).length ≤ 5 ∧
    (∀ p ∈ topCustomerPairs db,
      p.1 ∈ db.orders.map Order.customer_id ∧
      p.2 = ((db.orders.filter (fun o => o.customer_id == p.1)).map Order.amount).sum ∧
      (db.customers.find? (fun c => c.customer_id == p.1) = none →
        (p.1, p.2) ∈ topc db) ∧
      (∀ c, db.customers.find? (fun c2 => c2.customer_id == p.1) = some c →
        (c.name, p.2) ∈ topc db)) := by
  refine ⟨?_, List.length_take_le 5 _, ?_⟩
  · have h := pairwise_sortLe (fun a b : String × Int => decide (b.2 ≤ a.2))
      (fun a b c h1 h2 => by
        simp only [decide_eq_true_eq] at h1 h2 ⊢
        omega)
      (fun a b => by
        simp only [decide_eq_true_eq]
        omega)
      ((orderCustIds db.orders).map (fun c => (c, sumAmountsFor db.orders c)))
    exact (List.Pairwise.sublist (List.take_sublist 5 _) h).imp
      (fun hab => of_decide_eq_true hab)
  · intro p hp
    have hmem1 : p ∈ sortLe (fun a b : String × Int => decide (b.2 ≤ a.2))
        ((orderCustIds db.orders).map (fun c => (c, sumAmountsFor db.orders c))) :=
      (List.take_sublist 5 _).mem hp
    have hmem2 : p ∈ (orderCustIds db.orders).map
        (fun c => (c, sumAmountsFor db.orders c)) :=
      (sortLe_perm _ _).mem_iff.mp hmem1
    obtain ⟨k, hk, hpk⟩ := List.mem_map.mp hmem2
    subst hpk
    refine ⟨List.mem_dedup.mp hk, rfl, ?_, ?_⟩
    · intro hnone
      exact List.mem_map.mpr ⟨_, hp, by simp [resolveCustomerName, hnone]⟩
    · intro c hsome
      exact List.mem_map.mpr ⟨_, hp, by simp [resolveCustomerName, hsome]⟩

/-! ## Claim C6: saree-type distribution -/

theorem sum_indicator_nodup {α : Type u} [DecidableEq α] (K : List α) (a : α)
    (hnd : K.Nodup) (ha : a ∈ K) :
    (K.map (fun k => if a = k then 1 else 0)).sum = 1 := by
  induction K with
  | nil => cases ha
  | cons b t ih =>
    rw [List.nodup_cons] at hnd
    obtain ⟨hbt, hndt⟩ := hnd
    rcases List.mem_cons.mp ha with rfl | hat
    · have hz : (t.map (fun k => if a = k then 1 else 0)).sum = 0 := by
        apply List.sum_eq_zero
        intro x hx
        obtain ⟨k, hk, rfl⟩ := List.mem_map.mp hx
        exact if_neg (by intro h; subst h; exact hbt hk)
      simp [hz]
    · simp only [List.map_cons, List.sum_cons]
      rw [if_neg (by intro h; subst h; exact hbt hat), ih hndt hat]

theorem sum_countP_dedup {α : Type u} [DecidableEq α] (l : List α) :
    (l.dedup.map (fun k => l.countP (fun x => decide (x = k)))).sum = l.length := by
  induction l with
  | nil => simp
  | cons a t ih =>
    have hsplit : ∀ K : List α,
        (K.map (fun k => (a :: t).countP (fun x => decide (x = k)))).sum
          = (K.map (fun k => t.countP (fun x => decide (x = k)))).sum
            + (K.map (fun k => if a = k then 1 else 0)).sum := by
      intro K
      rw [← List.sum_map_add]
      apply congrArg
      apply List.map_congr_left
      intro k _
      rw [List.countP_cons]
      simp
    by_cases hmem : a ∈ t
    · rw [List.dedup_cons_of_mem hmem, hsplit, ih,
        sum_indicator_nodup t.dedup a (List.nodup_dedup t) (List.mem_dedup.mpr hmem),
        List.length_cons]
    · rw [List.dedup_cons_of_not_mem hmem, List.map_cons, List.sum_cons, hsplit]
      have h1 : (a :: t).countP (fun x => decide (x = a)) = 1 := by
        rw [List.countP_cons]
        have h0 : t.countP (fun x => decide (x = a)) = 0 :=
          List.countP_eq_zero.mpr
            (fun x hx hp => hmem ((of_decide_eq_true hp) ▸ hx))
        simp [h0]
      have h2 : (t.dedup.map (fun k => if a = k then 1 else 0)).sum = 0 := by
        apply List.sum_eq_zero
        intro x hx
        obtain ⟨k, hk, rfl⟩ := List.mem_map.mp hx
        exact if_neg (by intro h; subst h; exact hmem (List.mem_dedup.mp hk))
      rw [h1, h2, ih, List.length_cons]
      omega

/-- C6: the saree-type distribution labels every NULL-keyed or
empty-string-keyed group "Unknown", and it is exhaustive — the counts of
its entries sum to the total order count. -/
theorem c6_saree_distribution (db : Db) :
    ((saree_dist db).map Prod.snd).sum = db.orders.length ∧
    (∀ p ∈ sareeGroups db, (p.1 = none ∨ p.1 = some "") →
      ("Unknown", p.2) ∈ saree_dist db) := by
  constructor
  · have h1 : (saree_dist db).map Prod.snd =
        ((db.orders.map Order.saree_type).dedup.map
          (fun k => (db.orders.map Order.saree_type).countP (fun x => decide (x = k)))) := by
      simp only [saree_dist, sareeGroups, sareeKeys, List.map_map]
      apply List.map_congr_left
      intro k _
      simp only [Function.comp]
      rw [List.countP_map, ← List.countP_eq_length_filter]
      apply List.countP_congr
      intro o _
      simp [Function.comp]
    rw [h1, sum_countP_dedup, List.length_map]
  · intro p hp hkey
    refine List.mem_map.mpr ⟨p, hp, ?_⟩
    rcases hkey with h | h <;> simp [sareeLabel, h]

/-! ## Concrete states used by the witnesses -/

/-- Seed customer `C001` (from `seed_data`). -/
def seedC1 : Customer :=
  { id := 1, customer_id := "C001", name := "Priya Reddy",
    insta := some "@priyareddy", phone := some "9876543210",
    city := some "Hyderabad", ctype := some "Regular",
    notes := some "Loves soft silk sarees" }

/-- Seed customer `C002`. -/
def seedC2 : Customer :=
  { id := 2, customer_id := "C002", name := "Kavya Sharma",
    insta := some "@kavya.s", phone := some "9988776655",
    city := some "Bengaluru", ctype := some "New",
    notes := some "Asked about Banarasi" }

/-- Seed customer `C003`. -/
def seedC3 : Customer :=
  { id := 3, customer_id := "C003", name := "Meena Patel",
    insta := some "@meenap", phone := some "9123456780",
    city := some "Mumbai", ctype := some "VIP",
    notes := some "Prefers pastel colors" }

/-- Seed order `O001`. -/
def seedO1 : Order :=
  { id := 1, order_id := "O001", date := ⟨2024, 11, 2⟩, customer_id := "C001",
    saree_type := some "Soft Silk", amount := 2500,
    payment_status := some "Paid", delivery_status := some "Delivered",
    remarks := none }

/-- Seed order `O002`. -/
def seedO2 : Order :=
  { id := 2, order_id := "O002", date := ⟨2024, 11, 17⟩, customer_id := "C003",
    saree_type := some "Chiffon Floral", amount := 1800,
    payment_status := some "Paid", delivery_status := some "Delivered",
    remarks := none }

/-- Seed order `O003`. -/
def seedO3 : Order :=
  { id := 3, order_id := "O003", date := ⟨2024, 12, 2⟩, customer_id := "C002",
    saree_type := some "Banarasi", amount := 3200,
    payment_status := some "Paid", delivery_status := some "Delivered",
    remarks := none }

/-- Seed follow-up `F001`. -/
def seedF1 : FollowUp :=
  { id := 1, fu_id := "F001", date := ⟨2024, 12, 22⟩,
    customer_name := some "Kavya Sharma", insta := some "@kavya.s",
    topic := some "Interested in Banarasi saree", next_date := some ⟨2025, 1, 3⟩,
    status := some "Pending", remarks := some "Send new arrivals images" }

/-- The database state right after `seed_data` on an empty store. -/
def seedDb : Db :=
  { customers := [seedC1, seedC2, seedC3],
    orders := [seedO1, seedO2, seedO3],
    followups := [seedF1] }

/-- Witness for `c5_top_customers`: on the seed state the biggest spender is
`C002` with 3200, whose name resolves to the seed customer record. -/
theorem c5_top_customers_witness :
    ("Kavya Sharma", (3200 : Int)) ∈ topc seedDb :=
  ((c5_top_customers seedDb).2.2 ("C002", 3200) (by decide)).2.2.2
    seedC2 (by decide)

/-- State for the C6 witness: one order whose `saree_type` is NULL. -/
def c6Db : Db :=
  { customers := [],
    orders := [{ id := 1, order_id := "O001", date := ⟨2024, 1, 1⟩,
                 customer_id := "C001", saree_type := none, amount := 100,
                 payment_status := none, delivery_status := none,
                 remarks := none }],
    followups := [] }

/-- Witness for `c6_saree_distribution`: the NULL-typed group of `c6Db`
appears in the distribution labelled "Unknown". -/
theorem c6_saree_distribution_witness :
    ("Unknown", 1) ∈ saree_dist c6Db :=
  (c6_saree_distribution c6Db).2 (none, 1) (by decide) (Or.inl rfl)

/-! ## Claim C9: deleting a customer leaves orders and follow-ups alone -/

/-- C9: a customers-endpoint POST that resolves to an existing row and
carries the delete flag succeeds with a redirect and leaves the Order and
FollowUp tables of the database exactly unchanged. -/
theorem c9_delete_customer_frame (db : Db) (fm : CustomerForm) (cid : String)
    (ex : Customer)
    (hcid : fm.customer_id = some cid) (hne : cid ≠ "")
    (hfind : db.customers.find? (fun c => c.customer_id == cid) = some ex)
    (hmeth : fm._method = some "DELETE") :
    ∃ db', customersPost db fm = Except.ok (db', Outcome.redirect) ∧
      db'.orders = db.orders ∧ db'.followups = db.followups := by
  refine ⟨{ db with customers := db.customers.filter (fun r => r.id != ex.id) },
    ?_, rfl, rfl⟩
  simp [customersPost, resolveId, hcid, hne, hfind, hmeth]

/-- Witness for `c9_delete_customer_frame`: deleting seed customer `C002`
leaves the seed orders and follow-ups untouched. -/
theorem c9_delete_customer_frame_witness :
    ∃ db', customersPost seedDb
        { customer_id := some "C002", name := none, insta := none, phone := none,
          city := none, ctype := none, notes := none, _method := some "DELETE" } =
        Except.ok (db', Outcome.redirect) ∧
      db'.orders = seedDb.orders ∧ db'.followups = seedDb.followups :=
  c9_delete_customer_frame seedDb _ "C002" seedC2 rfl (by decide) (by decide) rfl

/-! ## Claim C10: POST with an existing ID and no operation flag -/

/-- C10: a POST whose (non-blank) supplied ID matches an existing row but
which carries neither the update nor the delete flag performs no write at
all — the handler returns the unchanged database together with the
rendered list page (not a redirect). For the orders endpoint the date
field must parse (it is parsed before the dispatch); for the follow-ups
endpoint only `next_date` must parse. -/
theorem c10_post_without_flag :
    (∀ (db : Db) (fm : CustomerForm) (cid : String) (ex : Customer),
      fm.customer_id = some cid → cid ≠ "" →
      db.customers.find? (fun c => c.customer_id == cid) = some ex →
      fm._method ≠ some "PUT" → fm._method ≠ some "DELETE" →
      customersPost db fm = Except.ok (db, Outcome.listPage (customersListing db))) ∧
    (∀ (today : Date) (db : Db) (fm : OrderForm) (oid : String) (ex : Order)
      (dobj : Date),
      fm.order_id = some oid → oid ≠ "" →
      resolveDate today fm.date = Except.ok dobj →
      db.orders.find? (fun o => o.order_id == oid) = some ex →
      fm._method ≠ some "PUT" → fm._method ≠ some "DELETE" →
      ordersPost today db fm = Except.ok (db, Outcome.listPage (ordersListing db))) ∧
    (∀ (today : Date) (db : Db) (fm : FollowUpForm) (fid : String) (ex : FollowUp)
      (nd : Option Date),
      fm.fu_id = some fid → fid ≠ "" →
      resolveNextDate fm.next_date = Except.ok nd →
      db.followups.find? (fun f => f.fu_id == fid) = some ex →
      fm._method ≠ some "PUT" → fm._method ≠ some "DELETE" →
      followupsPost today db fm = Except.ok (db, Outcome.listPage (followupsListing db))) := by
  refine ⟨?_, ?_, ?_⟩
  · intro db fm cid ex hcid hne hfind hput hdel
    simp [customersPost, resolveId, hcid, hne, hfind, hput, hdel]
  · intro today db fm oid ex dobj hoid hne hdate hfind hput hdel
    simp [ordersPost, resolveId, hoid, hne, hdate, hfind, hput, hdel]
  · intro today db fm fid ex nd hfid hne hnd hfind hput hdel
    simp [followupsPost, resolveId, hfid, hne, hnd, hfind, hput, hdel]

/-- Witness for `c10_post_without_flag`: flagless POSTs against the seed
state with matching IDs leave the state unchanged and render the list
pages. -/
theorem c10_post_without_flag_witness :
    customersPost seedDb
        { customer_id := some "C001", name := some "X", insta := none,
          phone := none, city := none, ctype := none, notes := none,
          _method := none } =
      Except.ok (seedDb, Outcome.listPage (customersListing seedDb)) ∧
    ordersPost ⟨2025, 1, 1⟩ seedDb
        { order_id := some "O001", date := some "2025-01-02", customer_id := some "C001",
          saree_type := none, amount := some "10", payment_status := none,
          delivery_status := none, remarks := none, _method := none } =
      Except.ok (seedDb, Outcome.listPage (ordersListing seedDb)) ∧
    followupsPost ⟨2025, 1, 1⟩ seedDb
        { fu_id := some "F001", date := some "not-a-date", customer_name := none,
          insta := none, topic := none, next_date := some "2025-01-05",
          status := none, remarks := none, _method := none } =
      Except.ok (seedDb, Outcome.listPage (followupsListing seedDb)) :=
  ⟨c10_post_without_flag.1 seedDb _ "C001" seedC1 rfl (by decide) (by decide)
      (by decide) (by decide),
   c10_post_without_flag.2.1 ⟨2025, 1, 1⟩ seedDb _ "O001" seedO1 ⟨2025, 1, 2⟩
      rfl (by decide) rfl (by decide) (by decide) (by decide),
   c10_post_without_flag.2.2 ⟨2025, 1, 1⟩ seedDb _ "F001" seedF1 (some ⟨2025, 1, 5⟩)
      rfl (by decide) rfl (by decide) (by decide) (by decide)⟩

/-! ## Claim C8: malformed dates -/

theorem next_order_id_error (rows : List Order) (e : CrmError) :
    next_order_id rows = Except.error e → e = CrmError.valueError := by
  intro h
  rw [next_order_id] at h
  split at h
  · exact Except.noConfusion h
  · split at h
    · injection h with h
      exact h.symm
    · exact Except.noConfusion h

theorem next_fu_id_error (rows : List FollowUp) (e : CrmError) :
    next_fu_id rows = Except.error e → e = CrmError.valueError := by
  intro h
  rw [next_fu_id] at h
  split at h
  · exact Except.noConfusion h
  · split at h
    · injection h with h
      exact h.symm
    · exact Except.noConfusion h

theorem resolveId_error {v : Option String} {g : Except CrmError String}
    {e : CrmError}
    (hg : ∀ e', g = Except.error e' → e' = CrmError.valueError)
    (h : resolveId v g = Except.error e) : e = CrmError.valueError := by
  cases v with
  | none => exact hg e h
  | some s =>
    rw [resolveId] at h
    by_cases hs : s = ""
    · rw [if_pos hs] at h
      exact hg e h
    · rw [if_neg hs] at h
      exact Except.noConfusion h

/-- The state refuting C8: one follow-up, about to be deleted by a request
whose `date` field is unparsable. -/
def c8Fu : FollowUp :=
  { id := 1, fu_id := "F001", date := ⟨2024, 1, 1⟩,
    customer_name := some "Kavya Sharma", insta := none, topic := none,
    next_date := none, status := some "Pending", remarks := none }

/-- Database of the C8 counterexample. -/
def c8Db : Db :=
  { customers := [], orders := [], followups := [c8Fu] }

/-- The C8 counterexample request: delete flag, existing `fu_id`, and a
non-empty `date` field that is not a parsable ISO date. -/
def c8Form : FollowUpForm :=
  { fu_id := some "F001", date := some "not-a-date", customer_name := none,
    insta := none, topic := none, next_date := none, status := none,
    remarks := none, _method := some "DELETE" }

/-- C8 is false as stated: a follow-ups POST whose `date` field is the
unparsable non-empty string "not-a-date" but which carries the delete flag
does *not* fail — the row is deleted and the request redirects, because the
follow-ups handler only parses `date` inside the update and insert
branches. -/
theorem c8_counterexample :
    followupsPost ⟨2025, 1, 1⟩ c8Db c8Form =
      Except.ok ({ customers := [], orders := [], followups := [] },
        Outcome.redirect) ∧
    parseDate "not-a-date" = none :=
  ⟨rfl, rfl⟩

/-- C8 (amended): for the orders endpoint a non-empty unparsable `date`
makes the request fail with the parse error before any branch runs, for
every operation flag; for the follow-ups endpoint the same holds for a
non-empty unparsable `next_date`, and an unparsable `date` likewise aborts
the update and insert branches — but a delete request with an unparsable
`date` (and no `next_date`) still deletes the row, because `date` is only
parsed inside the update and insert branches. -/
theorem c8_amended :
    (∀ (today : Date) (db : Db) (fm : OrderForm) (s : String),
      fm.date = some s → s ≠ "" → parseDate s = none →
      ordersPost today db fm = Except.error CrmError.valueError) ∧
    (∀ (today : Date) (db : Db) (fm : FollowUpForm) (s : String),
      fm.next_date = some s → s ≠ "" → parseDate s = none →
      followupsPost today db fm = Except.error CrmError.valueError) ∧
    (∀ (today : Date) (db : Db) (fm : FollowUpForm) (s fid : String)
      (ex : FollowUp),
      fm.date = some s → parseDate s = none → fm._method = some "DELETE" →
      fm.next_date = none → fm.fu_id = some fid → fid ≠ "" →
      db.followups.find? (fun f => f.fu_id == fid) = some ex →
      followupsPost today db fm =
        Except.ok ({ db with followups := db.followups.filter (fun r => r.id != ex.id) },
          Outcome.redirect)) ∧
    (∀ (today : Date) (db : Db) (fm : FollowUpForm) (s fid : String)
      (ex : FollowUp),
      fm.date = some s → s ≠ "" → parseDate s = none →
      fm._method = some "PUT" → fm.next_date = none → fm.fu_id = some fid →
      fid ≠ "" →
      db.followups.find? (fun f => f.fu_id == fid) = some ex →
      followupsPost today db fm = Except.error CrmError.valueError) ∧
    (∀ (today : Date) (db : Db) (fm : FollowUpForm) (s fid : String),
      fm.date = some s → s ≠ "" → parseDate s = none →
      resolveId fm.fu_id (next_fu_id db.followups) = Except.ok fid →
      fm.next_date = none →
      db.followups.find? (fun f => f.fu_id == fid) = none →
      followupsPost today db fm = Except.error CrmError.valueError) := by
  refine ⟨?_, ?_, ?_, ?_, ?_⟩
  · intro today db fm s hs hne hparse
    cases hres : resolveId fm.order_id (next_order_id db.orders) with
    | error e =>
      have he := resolveId_error (fun e' h' => next_order_id_error db.orders e' h') hres
      subst he
      simp [ordersPost, hres]
    | ok oid =>
      have hrd : resolveDate today fm.date = Except.error CrmError.valueError := by
        simp [resolveDate, hs, hne, hparse]
      simp [ordersPost, hres, hrd]
  · intro today db fm s hs hne hparse
    cases hres : resolveId fm.fu_id (next_fu_id db.followups) with
    | error e =>
      have he := resolveId_error (fun e' h' => next_fu_id_error db.followups e' h') hres
      subst he
      simp [followupsPost, hres]
    | ok fid =>
      have hrn : resolveNextDate fm.next_date = Except.error CrmError.valueError := by
        simp [resolveNextDate, hs, hne, hparse]
      simp [followupsPost, hres, hrn]
  · intro today db fm s fid ex hs hparse hmeth hnd hfid hne hfind
    simp [followupsPost, resolveId, hfid, hne, hnd, resolveNextDate, hfind, hmeth]
  · intro today db fm s fid ex hs hne hparse hmeth hnd hfid hfidne hfind
    have hrd : resolveDate today fm.date = Except.error CrmError.valueError := by
      simp [resolveDate, hs, hne, hparse]
    simp [followupsPost, resolveId, hfid, hfidne, hnd, resolveNextDate, hfind,
      hmeth, hrd]
  · intro today db fm s fid hs hne hparse hres hnd hfind
    have hrd : resolveDate today fm.date = Except.error CrmError.valueError := by
      simp [resolveDate, hs, hne, hparse]
    simp [followupsPost, hres, hnd, resolveNextDate, hfind, hrd]

/-- Witness for `c8_amended`: each conjunct at a concrete request against
the seed state (or `c8Db` for the delete case). -/
theorem c8_amended_witness :
    ordersPost ⟨2025, 1, 1⟩ seedDb
        { order_id := some "O001", date := some "bad-date", customer_id := some "C001",
          saree_type := none, amount := none, payment_status := none,
          delivery_status := none, remarks := none, _method := some "DELETE" } =
      Except.error CrmError.valueError ∧
    followupsPost ⟨2025, 1, 1⟩ seedDb
        { fu_id := some "F001", date := none, customer_name := none, insta := none,
          topic := none, next_date := some "bad-date", status := none,
          remarks := none, _method := some "DELETE" } =
      Except.error CrmError.valueError ∧
    followupsPost ⟨2025, 1, 1⟩ c8Db c8Form =
      Except.ok ({ customers := [], orders := [], followups := [] },
        Outcome.redirect) ∧
    followupsPost ⟨2025, 1, 1⟩ c8Db
        { c8Form with _method := some "PUT" } =
      Except.error CrmError.valueError ∧
    followupsPost ⟨2025, 1, 1⟩ c8Db
        { c8Form with fu_id := some "F009", _method := none } =
      Except.error CrmError.valueError := by
  refine ⟨?_, ?_, ?_, ?_, ?_⟩
  · exact c8_amended.1 ⟨2025, 1, 1⟩ seedDb _ "bad-date" rfl (by decide) (by decide)
  · exact c8_amended.2.1 ⟨2025, 1, 1⟩ seedDb _ "bad-date" rfl (by decide) (by decide)
  · have h := c8_amended.2.2.1 ⟨2025, 1, 1⟩ c8Db c8Form "not-a-date" "F001" c8Fu
      rfl (by decide) rfl rfl rfl (by decide) (by decide)
    exact h
  · exact c8_amended.2.2.2.1 ⟨2025, 1, 1⟩ c8Db _ "not-a-date" "F001" c8Fu
      rfl (by decide) (by decide) rfl rfl rfl (by decide) (by decide)
  · exact c8_amended.2.2.2.2 ⟨2025, 1, 1⟩ c8Db _ "not-a-date" "F009"
      rfl (by decide) (by decide) rfl rfl (by decide)

/-! ## Claim C2: POST dispatch (update / delete / insert) -/

theorem custApply_customer_id (fm : CustomerForm) (nm : String) (tid : Nat)
    (r : Customer) : (custApply fm nm tid r).customer_id = r.customer_id := by
  rw [custApply]
  split <;> rfl

theorem ordApply_order_id (fm : OrderForm) (dobj : Date) (amt : Int)
    (cust : String) (tid : Nat) (r : Order) :
    (ordApply fm dobj amt cust tid r).order_id = r.order_id := by
  rw [ordApply]
  split <;> rfl

theorem fuApply_fu_id (fm : FollowUpForm) (dobj : Date) (nd : Option Date)
    (tid : Nat) (r : FollowUp) :
    (fuApply fm dobj nd tid r).fu_id = r.fu_id := by
  rw [fuApply]
  split <;> rfl

/-- C2: the write dispatch of each entity's POST endpoint. When the
resolved ID matches an existing row and the update flag is set, every
form-controlled field of that row is overwritten with the submitted values
(blank fields clear the stored value) and a subsequent read by public ID
returns exactly the submitted values; when the delete flag is set the row
is removed (all other rows survive); when no row matches, a new row built
from the submitted fields is appended, the ID having been generated by
`resolveId` when the caller omitted or blanked it. Orders require their
`date`/`amount` fields to be well formed and `customer_id` present, and
follow-ups their `next_date` (plus `date` on the update path), matching
the separately specified failure behavior for malformed input. -/
theorem c2_post_dispatch :
    (∀ (db : Db) (fm : CustomerForm) (cid nm : String) (ex : Customer),
      fm.customer_id = some cid → cid ≠ "" →
      db.customers.find? (fun c => c.customer_id == cid) = some ex →
      fm._method = some "PUT" → fm.name = some nm →
      ∃ db', customersPost db fm = Except.ok (db', Outcome.redirect) ∧
        db'.customers.find? (fun c => c.customer_id == cid) =
          some { ex with name := nm, insta := fm.insta, phone := fm.phone,
                         city := fm.city, ctype := fm.ctype, notes := fm.notes }) ∧
    (∀ (db : Db) (fm : CustomerForm) (cid : String) (ex : Customer),
      fm.customer_id = some cid → cid ≠ "" →
      db.customers.find? (fun c => c.customer_id == cid) = some ex →
      fm._method = some "DELETE" →
      ∃ db', customersPost db fm = Except.ok (db', Outcome.redirect) ∧
        db'.customers = db.customers.filter (fun r => r.id != ex.id) ∧
        ex ∉ db'.customers ∧
        (∀ r ∈ db.customers, r.id ≠ ex.id → r ∈ db'.customers)) ∧
    (∀ (db : Db) (fm : CustomerForm) (cid nm : String),
      resolveId fm.customer_id (next_customer_id db.customers) = Except.ok cid →
      db.customers.find? (fun c => c.customer_id == cid) = none →
      fm.name = some nm →
      ∃ newRow : Customer,
        customersPost db fm =
          Except.ok ({ db with customers := db.customers ++ [newRow] },
            Outcome.redirect) ∧
        newRow.customer_id = cid ∧ newRow.name = nm ∧ newRow.insta = fm.insta ∧
        newRow.phone = fm.phone ∧ newRow.city = fm.city ∧
        newRow.ctype = fm.ctype ∧ newRow.notes = fm.notes) ∧
    (∀ (today : Date) (db : Db) (fm : OrderForm) (oid cust : String)
      (ex : Order) (dobj : Date) (amt : Int),
      fm.order_id = some oid → oid ≠ "" →
      resolveDate today fm.date = Except.ok dobj →
      db.orders.find? (fun o => o.order_id == oid) = some ex →
      fm._method = some "PUT" →
      resolveAmount fm.amount = Except.ok amt →
      fm.customer_id = some cust →
      ∃ db', ordersPost today db fm = Except.ok (db', Outcome.redirect) ∧
        db'.orders.find? (fun o => o.order_id == oid) =
          some { ex with date := dobj, customer_id := cust,
                         saree_type := fm.saree_type, amount := amt,
                         payment_status := fm.payment_status,
                         delivery_status := fm.delivery_status,
                         remarks := fm.remarks }) ∧
    (∀ (today : Date) (db : Db) (fm : OrderForm) (oid : String) (ex : Order)
      (dobj : Date),
      fm.order_id = some oid → oid ≠ "" →
      resolveDate today fm.date = Except.ok dobj →
      db.orders.find? (fun o => o.order_id == oid) = some ex →
      fm._method = some "DELETE" →
      ∃ db', ordersPost today db fm = Except.ok (db', Outcome.redirect) ∧
        db'.orders = db.orders.filter (fun r => r.id != ex.id) ∧
        ex ∉ db'.orders ∧
        (∀ r ∈ db.orders, r.id ≠ ex.id → r ∈ db'.orders)) ∧
    (∀ (today : Date) (db : Db) (fm : OrderForm) (oid cust : String)
      (dobj : Date) (amt : Int),
      resolveId fm.order_id (next_order_id db.orders) = Except.ok oid →
      resolveDate today fm.date = Except.ok dobj →
      db.orders.find? (fun o => o.order_id == oid) = none →
      resolveAmount fm.amount = Except.ok amt →
      fm.customer_id = some cust →
      ∃ newRow : Order,
        ordersPost today db fm =
          Except.ok ({ db with orders := db.orders ++ [newRow] },
            Outcome.redirect) ∧
        newRow.order_id = oid ∧ newRow.date = dobj ∧
        newRow.customer_id = cust ∧ newRow.saree_type = fm.saree_type ∧
        newRow.amount = amt ∧ newRow.payment_status = fm.payment_status ∧
        newRow.delivery_status = fm.delivery_status ∧
        newRow.remarks = fm.remarks) ∧
    (∀ (today : Date) (db : Db) (fm : FollowUpForm) (fid : String)
      (ex : FollowUp) (dobj : Date) (nd : Option Date),
      fm.fu_id = some fid → fid ≠ "" →
      resolveNextDate fm.next_date = Except.ok nd →
      db.followups.find? (fun f => f.fu_id == fid) = some ex →
      fm._method = some "PUT" →
      resolveDate today fm.date = Except.ok dobj →
      ∃ db', followupsPost today db fm = Except.ok (db', Outcome.redirect) ∧
        db'.followups.find? (fun f => f.fu_id == fid) =
          some { ex with date := dobj, customer_name := fm.customer_name,
                         insta := fm.insta, topic := fm.topic, next_date := nd,
                         status := fm.status, remarks := fm.remarks }) ∧
    (∀ (today : Date) (db : Db) (fm : FollowUpForm) (fid : String)
      (ex : FollowUp) (nd : Option Date),
      fm.fu_id = some fid → fid ≠ "" →
      resolveNextDate fm.next_date = Except.ok nd →
      db.followups.find? (fun f => f.fu_id == fid) = some ex →
      fm._method = some "DELETE" →
      ∃ db', followupsPost today db fm = Except.ok (db', Outcome.redirect) ∧
        db'.followups = db.followups.filter (fun r => r.id != ex.id) ∧
        ex ∉ db'.followups ∧
        (∀ r ∈ db.followups, r.id ≠ ex.id → r ∈ db'.followups)) ∧
    (∀ (today : Date) (db : Db) (fm : FollowUpForm) (fid : String)
      (dobj : Date) (nd : Option Date),
      resolveId fm.fu_id (next_fu_id db.followups) = Except.ok fid →
      resolveNextDate fm.next_date = Except.ok nd →
      db.followups.find? (fun f => f.fu_id == fid) = none →
      resolveDate today fm.date = Except.ok dobj →
      ∃ newRow : FollowUp,
        followupsPost today db fm =
          Except.ok ({ db with followups := db.followups ++ [newRow] },
            Outcome.redirect) ∧
        newRow.fu_id = fid ∧ newRow.date = dobj ∧
        newRow.customer_name = fm.customer_name ∧ newRow.insta = fm.insta ∧
        newRow.topic = fm.topic ∧ newRow.next_date = nd ∧
        newRow.status = fm.status ∧ newRow.remarks = fm.remarks) ∧
    (∀ (gen : Except CrmError String) (s : String),
      resolveId none gen = gen ∧ resolveId (some "") gen = gen ∧
      (s ≠ "" → resolveId (some s) gen = Except.ok s)) := by
  refine ⟨?_, ?_, ?_, ?_, ?_, ?_, ?_, ?_, ?_, ?_⟩
  · intro db fm cid nm ex hcid hne hfind hmeth hname
    refine ⟨{ db with customers := db.customers.map (custApply fm nm ex.id) }, ?_, ?_⟩
    · simp [customersPost, resolveId, hcid, hne, hfind, hmeth, hname]
    · show (db.customers.map (custApply fm nm ex.id)).find? _ = _
      rw [find?_map_of_pres _ _ (fun a => by rw [custApply_customer_id]), hfind]
      simp [custApply]
  · intro db fm cid ex hcid hne hfind hmeth
    refine ⟨{ db with customers := db.customers.filter (fun r => r.id != ex.id) },
      ?_, rfl, ?_, ?_⟩
    · simp [customersPost, resolveId, hcid, hne, hfind, hmeth]
    · intro hmem
      simp [List.mem_filter] at hmem
    · intro r hr hne2
      exact List.mem_filter.mpr ⟨hr, by simp [hne2]⟩
  · intro db fm cid nm hres hfind hname
    refine ⟨{ id := freshRowId (db.customers.map Customer.id), customer_id := cid,
              name := nm, insta := fm.insta, phone := fm.phone, city := fm.city,
              ctype := fm.ctype, notes := fm.notes },
      ?_, rfl, rfl, rfl, rfl, rfl, rfl, rfl⟩
    simp [customersPost, hres, hfind, hname]
  · intro today db fm oid cust ex dobj amt hoid hne hdate hfind hmeth hamt hcust
    refine ⟨{ db with orders := db.orders.map (ordApply fm dobj amt cust ex.id) },
      ?_, ?_⟩
    · simp [ordersPost, resolveId, hoid, hne, hdate, hfind, hmeth, hamt, hcust]
    · show (db.orders.map (ordApply fm dobj amt cust ex.id)).find? _ = _
      rw [find?_map_of_pres _ _ (fun a => by rw [ordApply_order_id]), hfind]
      simp [ordApply]
  · intro today db fm oid ex dobj hoid hne hdate hfind hmeth
    refine ⟨{ db with orders := db.orders.filter (fun r => r.id != ex.id) },
      ?_, rfl, ?_, ?_⟩
    · simp [ordersPost, resolveId, hoid, hne, hdate, hfind, hmeth]
    · intro hmem
      simp [List.mem_filter] at hmem
    · intro r hr hne2
      exact List.mem_filter.mpr ⟨hr, by simp [hne2]⟩
  · intro today db fm oid cust dobj amt hres hdate hfind hamt hcust
    refine ⟨{ id := freshRowId (db.orders.map Order.id), order_id := oid,
              date := dobj, customer_id := cust, saree_type := fm.saree_type,
              amount := amt, payment_status := fm.payment_status,
              delivery_status := fm.delivery_status, remarks := fm.remarks },
      ?_, rfl, rfl, rfl, rfl, rfl, rfl, rfl, rfl⟩
    simp [ordersPost, hres, hdate, hfind, hamt, hcust]
  · intro today db fm fid ex dobj nd hfid hne hnd hfind hmeth hdate
    refine ⟨{ db with followups := db.followups.map (fuApply fm dobj nd ex.id) },
      ?_, ?_⟩
    · simp [followupsPost, resolveId, hfid, hne, hnd, hfind, hmeth, hdate]
    · show (db.followups.map (fuApply fm dobj nd ex.id)).find? _ = _
      rw [find?_map_of_pres _ _ (fun a => by rw [fuApply_fu_id]), hfind]
      simp [fuApply]
  · intro today db fm fid ex nd hfid hne hnd hfind hmeth
    refine ⟨{ db with followups := db.followups.filter (fun r => r.id != ex.id) },
      ?_, rfl, ?_, ?_⟩
    · simp [followupsPost, resolveId, hfid, hne, hnd, hfind, hmeth]
    · intro hmem
      simp [List.mem_filter] at hmem
    · intro r hr hne2
      exact List.mem_filter.mpr ⟨hr, by simp [hne2]⟩
  · intro today db fm fid dobj nd hres hnd hfind hdate
    refine ⟨{ id := freshRowId (db.followups.map FollowUp.id), fu_id := fid,
              date := dobj, customer_name := fm.customer_name, insta := fm.insta,
              topic := fm.topic, next_date := nd, status := fm.status,
              remarks := fm.remarks },
      ?_, rfl, rfl, rfl, rfl, rfl, rfl, rfl, rfl⟩
    simp [followupsPost, hres, hnd, hfind, hdate]
  · intro gen s
    refine ⟨rfl, rfl, fun hs => ?_⟩
    simp [resolveId, hs]

/-- Customers update request of the C2 witness. -/
def c2Fm1 : CustomerForm :=
  { customer_id := some "C001", name := some "Priya R", insta := some "",
    phone := none, city := some "Hyd", ctype := some "VIP", notes := none,
    _method := some "PUT" }

/-- Customers delete request of the C2 witness. -/
def c2Fm2 : CustomerForm :=
  { customer_id := some "C002", name := none, insta := none, phone := none,
    city := none, ctype := none, notes := none, _method := some "DELETE" }

/-- Customers insert request (no caller-supplied ID) of the C2 witness. -/
def c2Fm3 : CustomerForm :=
  { customer_id := none, name := some "New Customer", insta := none,
    phone := none, city := none, ctype := some "New", notes := none,
    _method := none }

/-- Orders update request of the C2 witness. -/
def c2Fm4 : OrderForm :=
  { order_id := some "O001", date := some "2025-02-03",
    customer_id := some "C003", saree_type := some "Silk",
    amount := some "999", payment_status := some "Pending",
    delivery_status := some "Shipped", remarks := some "",
    _method := some "PUT" }

/-- Orders delete request of the C2 witness. -/
def c2Fm5 : OrderForm :=
  { order_id := some "O002", date := none, customer_id := none,
    saree_type := none, amount := none, payment_status := none,
    delivery_status := none, remarks := none, _method := some "DELETE" }

/-- Orders insert request (no caller-supplied ID) of the C2 witness. -/
def c2Fm6 : OrderForm :=
  { order_id := none, date := none, customer_id := some "C001",
    saree_type := none, amount := none, payment_status := some "Paid",
    delivery_status := some "Pending", remarks := none, _method := none }

/-- Follow-ups update request of the C2 witness. -/
def c2Fm7 : FollowUpForm :=
  { fu_id := some "F001", date := some "2025-01-02",
    customer_name := some "Kavya S", insta := none, topic := some "Banarasi",
    next_date := some "2025-02-01", status := some "Done", remarks := none,
    _method := some "PUT" }

/-- Follow-ups delete request of the C2 witness. -/
def c2Fm8 : FollowUpForm :=
  { fu_id := some "F001", date := none, customer_name := none, insta := none,
    topic := none, next_date := none, status := none, remarks := none,
    _method := some "DELETE" }

/-- Follow-ups insert request (no caller-supplied ID) of the C2 witness. -/
def c2Fm9 : FollowUpForm :=
  { fu_id := none, date := none, customer_name := some "Priya Reddy",
    insta := none, topic := some "New arrivals", next_date := none,
    status := some "Pending", remarks := none, _method := none }

/-- Witness for `c2_post_dispatch`: every dispatch case once, against the
seed state, with every hypothesis discharged on concrete data. -/
theorem c2_post_dispatch_witness :
    (∃ db', customersPost seedDb c2Fm1 = Except.ok (db', Outcome.redirect) ∧
      db'.customers.find? (fun c => c.customer_id == "C001") =
        some { seedC1 with name := "Priya R", insta := some "", phone := none,
                           city := some "Hyd", ctype := some "VIP",
                           notes := none }) ∧
    (∃ db', customersPost seedDb c2Fm2 = Except.ok (db', Outcome.redirect) ∧
      db'.customers = seedDb.customers.filter (fun r => r.id != seedC2.id) ∧
      seedC2 ∉ db'.customers ∧
      (∀ r ∈ seedDb.customers, r.id ≠ seedC2.id → r ∈ db'.customers)) ∧
    (∃ newRow : Customer,
      customersPost seedDb c2Fm3 =
        Except.ok ({ seedDb with customers := seedDb.customers ++ [newRow] },
          Outcome.redirect) ∧
      newRow.customer_id = "C004" ∧ newRow.name = "New Customer" ∧
      newRow.insta = c2Fm3.insta ∧ newRow.phone = c2Fm3.phone ∧
      newRow.city = c2Fm3.city ∧ newRow.ctype = c2Fm3.ctype ∧
      newRow.notes = c2Fm3.notes) ∧
    (∃ db', ordersPost ⟨2025, 1, 1⟩ seedDb c2Fm4 = Except.ok (db', Outcome.redirect) ∧
      db'.orders.find? (fun o => o.order_id == "O001") =
        some { seedO1 with date := ⟨2025, 2, 3⟩, customer_id := "C003",
                           saree_type := some "Silk", amount := 999,
                           payment_status := some "Pending",
                           delivery_status := some "Shipped",
                           remarks := some "" }) ∧
    (∃ db', ordersPost ⟨2025, 1, 1⟩ seedDb c2Fm5 = Except.ok (db', Outcome.redirect) ∧
      db'.orders = seedDb.orders.filter (fun r => r.id != seedO2.id) ∧
      seedO2 ∉ db'.orders ∧
      (∀ r ∈ seedDb.orders, r.id ≠ seedO2.id → r ∈ db'.orders)) ∧
    (∃ newRow : Order,
      ordersPost ⟨2025, 1, 1⟩ seedDb c2Fm6 =
        Except.ok ({ seedDb with orders := seedDb.orders ++ [newRow] },
          Outcome.redirect) ∧
      newRow.order_id = "O004" ∧ newRow.date = ⟨2025, 1, 1⟩ ∧
      newRow.customer_id = "C001" ∧ newRow.saree_type = c2Fm6.saree_type ∧
      newRow.amount = 0 ∧ newRow.payment_status = c2Fm6.payment_status ∧
      newRow.delivery_status = c2Fm6.delivery_status ∧
      newRow.remarks = c2Fm6.remarks) ∧
    (∃ db', followupsPost ⟨2025, 1, 1⟩ seedDb c2Fm7 = Except.ok (db', Outcome.redirect) ∧
      db'.followups.find? (fun f => f.fu_id == "F001") =
        some { seedF1 with date := ⟨2025, 1, 2⟩, customer_name := some "Kavya S",
                           insta := none, topic := some "Banarasi",
                           next_date := some ⟨2025, 2, 1⟩, status := some "Done",
                           remarks := none }) ∧
    (∃ db', followupsPost ⟨2025, 1, 1⟩ seedDb c2Fm8 = Except.ok (db', Outcome.redirect) ∧
      db'.followups = seedDb.followups.filter (fun r => r.id != seedF1.id) ∧
      seedF1 ∉ db'.followups ∧
      (∀ r ∈ seedDb.followups, r.id ≠ seedF1.id → r ∈ db'.followups)) ∧
    (∃ newRow : FollowUp,
      followupsPost ⟨2025, 1, 1⟩ seedDb c2Fm9 =
        Except.ok ({ seedDb with followups := seedDb.followups ++ [newRow] },
          Outcome.redirect) ∧
      newRow.fu_id = "F002" ∧ newRow.date = ⟨2025, 1, 1⟩ ∧
      newRow.customer_name = c2Fm9.customer_name ∧ newRow.insta = c2Fm9.insta ∧
      newRow.topic = c2Fm9.topic ∧ newRow.next_date = none ∧
      newRow.status = c2Fm9.status ∧ newRow.remarks = c2Fm9.remarks) ∧
    (resolveId none (Except.ok "X") = Except.ok "X" ∧
      resolveId (some "") (Except.ok "X") = Except.ok "X" ∧
      ("Y" ≠ "" → resolveId (some "Y") (Except.ok "X") = Except.ok "Y")) :=
  ⟨c2_post_dispatch.1 seedDb c2Fm1 "C001" "Priya R" seedC1 rfl (by decide)
      (by decide) rfl rfl,
   c2_post_dispatch.2.1 seedDb c2Fm2 "C002" seedC2 rfl (by decide) (by decide) rfl,
   c2_post_dispatch.2.2.1 seedDb c2Fm3 "C004" "New Customer" rfl (by decide) rfl,
   c2_post_dispatch.2.2.2.1 ⟨2025, 1, 1⟩ seedDb c2Fm4 "O001" "C003" seedO1
      ⟨2025, 2, 3⟩ 999 rfl (by decide) rfl (by decide) rfl rfl rfl,
   c2_post_dispatch.2.2.2.2.1 ⟨2025, 1, 1⟩ seedDb c2Fm5 "O002" seedO2
      ⟨2025, 1, 1⟩ rfl (by decide) rfl (by decide) rfl,
   c2_post_dispatch.2.2.2.2.2.1 ⟨2025, 1, 1⟩ seedDb c2Fm6 "O004" "C001"
      ⟨2025, 1, 1⟩ 0 rfl rfl (by decide) rfl rfl,
   c2_post_dispatch.2.2.2.2.2.2.1 ⟨2025, 1, 1⟩ seedDb c2Fm7 "F001" seedF1
      ⟨2025, 1, 2⟩ (some ⟨2025, 2, 1⟩) rfl (by decide) rfl (by decide) rfl rfl,
   c2_post_dispatch.2.2.2.2.2.2.2.1 ⟨2025, 1, 1⟩ seedDb c2Fm8 "F001" seedF1
      none rfl (by decide) rfl (by decide) rfl,
   c2_post_dispatch.2.2.2.2.2.2.2.2.1 ⟨2025, 1, 1⟩ seedDb c2Fm9 "F002"
      ⟨2025, 1, 1⟩ none rfl rfl (by decide) rfl,
   c2_post_dispatch.2.2.2.2.2.2.2.2.2 (Except.ok "X") "Y"⟩

end SareeCrm
